import Mathlib

/- A shallow embedding of the DeckHand real-time room synchronization server
   (src/server.ts) together with the room-code utility functions, and theorems
   checking the natural-language specification claims against it.

   Modelling conventions:
   - The three global JS Maps of server.ts (rooms, deviceInfo, roomStates) are
     association lists keyed by String; JS Map.get / Map.set / Map.delete are
     lookupA / setKey / delKey.
   - JS Set<string> values (the per-room device sets) are lists without
     duplicates in insertion order; Set.add / Set.delete are addElem /
     List.erase.
   - The socket.io room membership (socket.join / socket.leave, and the
     implicit removal of a disconnecting socket from all its rooms before the
     user disconnect handler runs) is tracked in a fourth map, socketRooms;
     io.to(roomId).emit reaches exactly the sockets in that map entry,
     socket.to(roomId).emit the same minus the sender, socket.emit only the
     sender.
   - Date.now() is modelled by an explicit now : Nat argument per event.
   - Each registered socket.on handler of server.ts becomes one handler
     function; an inbound event with no registered handler (socket.io
     semantics) leaves the state unchanged and emits nothing. -/

namespace DeckHand

/-- Association-list lookup, modelling JS Map.get (first matching key wins;
reachable states never hold duplicate keys). -/
def lookupA {α : Type} (k : String) : List (String × α) → Option α
  | [] => none
  | p :: rest => if p.1 = k then some p.2 else lookupA k rest

/-- Association-list update, modelling JS Map.set: replaces the entry with the
given key, or appends a new entry. -/
def setKey {α : Type} (k : String) (v : α) : List (String × α) → List (String × α)
  | [] => [(k, v)]
  | p :: rest => if p.1 = k then (k, v) :: rest else p :: setKey k v rest

/-- Association-list removal, modelling JS Map.delete. -/
def delKey {α : Type} (k : String) : List (String × α) → List (String × α)
  | [] => []
  | p :: rest => if p.1 = k then delKey k rest else p :: delKey k rest

/-- JS Set.add: appends the element if not already present (insertion order
is preserved, matching JS Set iteration order). -/
def addElem (l : List String) (x : String) : List String :=
  if x ∈ l then l else l ++ [x]

/-- The per-room state record of server.ts (interface RoomState, lines 59-64):
slideIndex, totalSlides and two activity timestamps.  Note that the record has
no toggle or timer fields. -/
structure RoomState where
  slideIndex : Int
  totalSlides : Int
  createdAt : Nat
  lastActivity : Nat
deriving DecidableEq

/-- Device roles (server.ts, interface DeviceInfo). -/
inductive Role where
  | stage
  | remote
  | teleprompter
deriving DecidableEq

/-- Per-connection device record (server.ts, interface DeviceInfo, lines
66-71). -/
structure DeviceInfo where
  role : Role
  name : String
  roomId : String
  joinedAt : Nat
deriving DecidableEq

/-- The whole mutable server state: the three global Maps of server.ts
(lines 74-76) plus the socket.io room-membership bookkeeping. -/
structure ServerState where
  rooms : List (String × List String)
  deviceInfo : List (String × DeviceInfo)
  roomStates : List (String × RoomState)
  socketRooms : List (String × List String)
deriving DecidableEq

/-- The state of a freshly started server: all maps empty. -/
def initialState : ServerState := ⟨[], [], [], []⟩

/-- One entry of the device list carried by a room-updated broadcast
(getConnectedDevices, server.ts lines 79-89). -/
structure DeviceEntry where
  id : String
  role : Role
  name : String
deriving DecidableEq

/-- Payload of a slide-sync message (server.ts lines 156-160, 195-201,
218-222); sourceId and timestamp are present only for the slide-change
broadcast. -/
structure SlideSyncPayload where
  slideIndex : Int
  totalSlides : Int
  roomId : String
  sourceId : Option String
  timestamp : Option Nat
deriving DecidableEq

/-- Payload of a room-updated broadcast (broadcastRoomUpdate, server.ts lines
92-102). -/
structure RoomUpdatedPayload where
  roomId : String
  devices : List DeviceEntry
  totalDevices : Nat
  totalSlides : Int
deriving DecidableEq

/-- An outbound server-to-client message together with its recipient set.
annoReceived / annosCleared stand for the annotation-received /
annotations-cleared relay events (payloads opaque, modelled as String). -/
inductive Emit where
  | slideSync (recipients : List String) (payload : SlideSyncPayload)
  | roomUpdated (recipients : List String) (payload : RoomUpdatedPayload)
  | annoReceived (recipients : List String) (slideId stroke sourceId : String)
  | annosCleared (recipients : List String) (slideId roomId : String)
deriving DecidableEq

/-- Recipients of io.to(roomId).emit: every socket currently joined to the
socket.io room. -/
def ioTo (s : ServerState) (roomId : String) : List String :=
  (lookupA roomId s.socketRooms).getD []

/-- socket.join(roomId). -/
def addSocket (roomId x : String) (m : List (String × List String)) :
    List (String × List String) :=
  setKey roomId (addElem ((lookupA roomId m).getD []) x) m

/-- socket.leave(roomId). -/
def removeSocket (roomId x : String) (m : List (String × List String)) :
    List (String × List String) :=
  match lookupA roomId m with
  | some l => setKey roomId (l.erase x) m
  | none => m

/-- getConnectedDevices (server.ts lines 79-89): the room's device set mapped
through deviceInfo, dropping ids with no info record; empty list for an
unknown room. -/
def getConnectedDevices (s : ServerState) (roomId : String) : List DeviceEntry :=
  match lookupA roomId s.rooms with
  | none => []
  | some deviceSet =>
    deviceSet.filterMap fun id =>
      (lookupA id s.deviceInfo).map fun info =>
        { id := id, role := info.role, name := info.name }

/-- broadcastRoomUpdate (server.ts lines 92-102): emits room-updated with the
device list to every socket in the room; totalSlides falls back to 0 when the
room has no state record (the JS expression is state?.totalSlides or 0). -/
def broadcastRoomUpdate (s : ServerState) (roomId : String) : Emit :=
  let devices := getConnectedDevices s roomId
  Emit.roomUpdated (ioTo s roomId)
    { roomId := roomId, devices := devices, totalDevices := devices.length,
      totalSlides := ((lookupA roomId s.roomStates).map RoomState.totalSlides).getD 0 }

/-- Inbound events.  The first eight have registered handlers in server.ts;
the toggle and timer events are emitted by the client synchronization hook
(toggleFullscreen / togglePlay / toggleGrid / togglePrivacy / updateTimer /
timerTick) but server.ts registers no handler for them. -/
inductive Event where
  | joinRoom (sender roomId : String) (role : Role) (deviceName : String)
  | slideChange (sender roomId : String) (slideIndex : Int) (totalSlides : Option Int)
  | setTotalSlides (sender roomId : String) (totalSlides : Int)
  | annoData (sender roomId slideId stroke : String)
  | clearAnnos (sender roomId slideId : String)
  | updateRole (sender roomId : String) (role : Role) (deviceName : String)
  | disconnect (sender : String)
  | leaveRoom (sender roomId : String)
  | toggleFullscreen (sender roomId : String) (value : Bool)
  | togglePlay (sender roomId : String) (value : Bool)
  | toggleGrid (sender roomId : String) (value : Bool)
  | togglePrivacy (sender roomId : String) (value : Bool)
  | timerUpdate (sender roomId : String) (timerState : String)
  | timerTick (sender roomId : String) (remaining : Int)

/-- First phase of the join-room handler (server.ts lines 117-126): if the
connection was registered in a different room, leave that socket.io room,
remove it from the old device set, and broadcast the old room's update.
Note that the emptied old room is not deleted here. -/
def joinPrev (s0 : ServerState) (sender roomId : String) : ServerState × List Emit :=
  match lookupA sender s0.deviceInfo with
  | some existingInfo =>
    if existingInfo.roomId ≠ roomId then
      let sa := { s0 with socketRooms := removeSocket existingInfo.roomId sender s0.socketRooms }
      match lookupA existingInfo.roomId sa.rooms with
      | some oldDeviceSet =>
        let sb := { sa with rooms := setKey existingInfo.roomId (oldDeviceSet.erase sender) sa.rooms }
        (sb, [broadcastRoomUpdate sb existingInfo.roomId])
      | none => (sa, ([] : List Emit))
    else (s0, ([] : List Emit))
  | none => (s0, ([] : List Emit))

/-- Second phase of the join-room handler (server.ts lines 128-163): join
the socket.io room, store the device info (a falsy deviceName, modelled by
the empty string, falls back to 'Unknown Device'), initialize the room and
its default state record if absent, add the device to the device set, bump
lastActivity, unicast the current slide state to the joiner and broadcast
the room update.  The final none branch models the runtime abort a missing
state record would cause at the non-null assertion on line 152; it is
unreachable from states where rooms and roomStates hold the same keys. -/
def joinCore (now : Nat) (s1 : ServerState) (sender roomId : String)
    (role : Role) (deviceName : String) : ServerState × List Emit :=
  let s2 := { s1 with socketRooms := addSocket roomId sender s1.socketRooms }
  let newInfo : DeviceInfo :=
    { role := role,
      name := if deviceName = "" then "Unknown Device" else deviceName,
      roomId := roomId, joinedAt := now }
  let s3 := { s2 with deviceInfo := setKey sender newInfo s2.deviceInfo }
  let s4 := match lookupA roomId s3.rooms with
    | none =>
      { s3 with rooms := setKey roomId [] s3.rooms,
                roomStates := setKey roomId
                  { slideIndex := 1, totalSlides := 0, createdAt := now, lastActivity := now }
                  s3.roomStates }
    | some _ => s3
  let s5 :=
    match lookupA roomId s4.rooms with
    | some ds => { s4 with rooms := setKey roomId (addElem ds sender) s4.rooms }
    | none => s4
  match lookupA roomId s5.roomStates with
  | none => (s5, [])
  | some st =>
    let s6 := { s5 with roomStates := setKey roomId { st with lastActivity := now } s5.roomStates }
    (s6, [Emit.slideSync [sender]
           { slideIndex := st.slideIndex, totalSlides := st.totalSlides,
             roomId := roomId, sourceId := none, timestamp := none },
          broadcastRoomUpdate s6 roomId])

/-- The join-room handler (server.ts lines 114-166): the leave-previous-room
phase followed by the join phase, emitting in program order. -/
def handleJoinRoom (now : Nat) (s0 : ServerState) (sender roomId : String)
    (role : Role) (deviceName : String) : ServerState × List Emit :=
  let prev := joinPrev s0 sender roomId
  let core := joinCore now prev.1 sender roomId role deviceName
  (core.1, prev.2 ++ core.2)

/-- The guard on the optional totalSlides field of a slide-change event
(server.ts lines 189-191): overwrite only when present and positive. -/
def applyTotal (cur : Int) : Option Int → Int
  | some t => if 0 < t then t else cur
  | none => cur

/-- The slide-change handler (server.ts lines 171-204): no state record for
the room means silent return; otherwise slideIndex is overwritten
unconditionally, totalSlides only through the positivity guard, and a
slide-sync carrying the sender id and server timestamp goes to every socket
in the room, the sender included. -/
def handleSlideChange (now : Nat) (s : ServerState) (sender roomId : String)
    (slideIndex : Int) (totalSlides : Option Int) : ServerState × List Emit :=
  match lookupA roomId s.roomStates with
  | none => (s, [])
  | some st =>
    let st2 : RoomState :=
      { st with slideIndex := slideIndex, lastActivity := now,
                totalSlides := applyTotal st.totalSlides totalSlides }
    let s1 := { s with roomStates := setKey roomId st2 s.roomStates }
    (s1, [Emit.slideSync (ioTo s1 roomId)
      { slideIndex := slideIndex, totalSlides := st2.totalSlides,
        roomId := roomId, sourceId := some sender, timestamp := some now }])

/-- The set-total-slides handler (server.ts lines 209-224): if the room has a
state record, totalSlides is overwritten unconditionally (no positivity
guard in this handler) and a slide-sync goes to the whole room. -/
def handleSetTotalSlides (now : Nat) (s : ServerState) (_sender roomId : String)
    (totalSlides : Int) : ServerState × List Emit :=
  match lookupA roomId s.roomStates with
  | none => (s, [])
  | some st =>
    let st2 : RoomState := { st with totalSlides := totalSlides, lastActivity := now }
    let s1 := { s with roomStates := setKey roomId st2 s.roomStates }
    (s1, [Emit.slideSync (ioTo s1 roomId)
      { slideIndex := st2.slideIndex, totalSlides := st2.totalSlides,
        roomId := roomId, sourceId := none, timestamp := none }])

/-- The annotation-data handler (server.ts lines 229-238): pure relay to the
room minus the sender. -/
def handleAnnoData (s : ServerState) (sender roomId slideId stroke : String) :
    ServerState × List Emit :=
  (s, [Emit.annoReceived ((ioTo s roomId).filter (fun x => x ≠ sender)) slideId stroke sender])

/-- The clear-annotations handler (server.ts lines 240-244): relay to the
whole room. -/
def handleClearAnnos (s : ServerState) (_sender roomId slideId : String) :
    ServerState × List Emit :=
  (s, [Emit.annosCleared (ioTo s roomId) slideId roomId])

/-- The update-role handler (server.ts lines 249-259). -/
def handleUpdateRole (s : ServerState) (sender roomId : String) (role : Role)
    (deviceName : String) : ServerState × List Emit :=
  let s1 :=
    match lookupA sender s.deviceInfo with
    | some info =>
      let newInfo : DeviceInfo :=
        { info with role := role,
                    name := if deviceName = "" then info.name else deviceName }
      { s with deviceInfo := setKey sender newInfo s.deviceInfo }
    | none => s
  (s1, [broadcastRoomUpdate s1 roomId])

/-- The disconnect handler (server.ts lines 264-287).  socket.io removes the
disconnecting socket from all its rooms before the handler runs, so that
removal comes first; the handler then removes the device from its registered
room, deletes the room and its state record if the device set emptied, and
finally drops the deviceInfo entry. -/
def handleDisconnect (s : ServerState) (sender : String) : ServerState × List Emit :=
  let s0 := { s with socketRooms :=
    s.socketRooms.map (fun p : String × List String => (p.1, p.2.erase sender)) }
  let core :=
    match lookupA sender s0.deviceInfo with
    | some info =>
      match lookupA info.roomId s0.rooms with
      | some deviceSet =>
        let ds := deviceSet.erase sender
        if ds = [] then
          ({ s0 with rooms := delKey info.roomId s0.rooms,
                     roomStates := delKey info.roomId s0.roomStates }, ([] : List Emit))
        else
          let sb := { s0 with rooms := setKey info.roomId ds s0.rooms }
          (sb, [broadcastRoomUpdate sb info.roomId])
      | none => (s0, ([] : List Emit))
    | none => (s0, ([] : List Emit))
  ({ core.1 with deviceInfo := delKey sender core.1.deviceInfo }, core.2)

/-- The leave-room handler (server.ts lines 292-311): socket.leave on the
payload room, removal from that room's device set, deletion of room and
state record if emptied, broadcast otherwise, then deviceInfo removal. -/
def handleLeaveRoom (s : ServerState) (sender roomId : String) : ServerState × List Emit :=
  let s0 := { s with socketRooms := removeSocket roomId sender s.socketRooms }
  let core :=
    match lookupA roomId s0.rooms with
    | some deviceSet =>
      let ds := deviceSet.erase sender
      if ds = [] then
        ({ s0 with rooms := delKey roomId s0.rooms,
                   roomStates := delKey roomId s0.roomStates }, ([] : List Emit))
      else
        let sb := { s0 with rooms := setKey roomId ds s0.rooms }
        (sb, [broadcastRoomUpdate sb roomId])
    | none => (s0, ([] : List Emit))
  ({ core.1 with deviceInfo := delKey sender core.1.deviceInfo }, core.2)

/-- One step of the server: dispatch an inbound event to its registered
handler.  server.ts registers handlers only for join-room, slide-change,
set-total-slides, annotation-data, clear-annotations, update-role,
disconnect and leave-room (lines 108-312); for every other event name
socket.io silently does nothing, so the toggle and timer events the client
emits leave the state unchanged and produce no broadcast. -/
def step (now : Nat) (s : ServerState) : Event → ServerState × List Emit
  | .joinRoom sender roomId role deviceName => handleJoinRoom now s sender roomId role deviceName
  | .slideChange sender roomId slideIndex totalSlides =>
      handleSlideChange now s sender roomId slideIndex totalSlides
  | .setTotalSlides sender roomId totalSlides => handleSetTotalSlides now s sender roomId totalSlides
  | .annoData sender roomId slideId stroke => handleAnnoData s sender roomId slideId stroke
  | .clearAnnos sender roomId slideId => handleClearAnnos s sender roomId slideId
  | .updateRole sender roomId role deviceName => handleUpdateRole s sender roomId role deviceName
  | .disconnect sender => handleDisconnect s sender
  | .leaveRoom sender roomId => handleLeaveRoom s sender roomId
  | .toggleFullscreen _ _ _ => (s, [])
  | .togglePlay _ _ _ => (s, [])
  | .toggleGrid _ _ _ => (s, [])
  | .togglePrivacy _ _ _ => (s, [])
  | .timerUpdate _ _ _ => (s, [])
  | .timerTick _ _ _ => (s, [])

/- Room-code utilities (the client-side helper module: createRoomCode /
   isValidRoomCode / formatRoomCode / normalizeRoomCode).  JS strings are
   modelled through their character lists; the ASCII fragment of
   String.prototype.toUpperCase is charToUpper, and the regex whitespace
   class is modelled by Char.isWhitespace. -/

/-- The character class [A-Z0-9] of the room-code regex. -/
def upperAlnumChars : List Char :=
  "ABCDEFGHIJKLMNOPQRSTUVWXYZ0123456789".toList

/-- Membership in the regex character class [A-Z0-9]. -/
def isUpperAlnum (ch : Char) : Bool :=
  decide (ch ∈ upperAlnumChars)

/-- isValidRoomCode: the test of the anchored regex with exactly six
characters from [A-Z0-9]. -/
def isValidRoomCode (code : String) : Bool :=
  code.length == 6 && code.toList.all isUpperAlnum

/-- ASCII case mapping of String.prototype.toUpperCase, applied per
character. -/
def charToUpper (ch : Char) : Char :=
  if 'a' ≤ ch ∧ ch ≤ 'z' then Char.ofNat (ch.toNat - 32) else ch

/-- formatRoomCode: a six-character code is displayed with a dash between the
first three and last three characters (slice(0,3) and slice(3)); anything
else is returned unchanged. -/
def formatRoomCode (code : String) : String :=
  if code.length ≠ 6 then code
  else String.mk (code.toList.take 3) ++ "-" ++ String.mk (code.toList.drop 3)

/-- normalizeRoomCode: drop every whitespace character and dash (the replace
with the character class of whitespace and dash), then uppercase. -/
def normalizeRoomCode (input : String) : String :=
  String.mk ((input.toList.filter fun ch => !(ch.isWhitespace || ch == '-')).map charToUpper)

/- Lemmas about the association-list operations. -/

theorem lookupA_setKey_self {α : Type} (k : String) (v : α) (m : List (String × α)) :
    lookupA k (setKey k v m) = some v := by
  induction m with
  | nil => simp [setKey, lookupA]
  | cons p rest ih =>
    by_cases h : p.1 = k
    · simp [setKey, h, lookupA]
    · simp [setKey, h, lookupA, ih]

theorem lookupA_setKey_ne {α : Type} {r k : String} (h : r ≠ k) (v : α)
    (m : List (String × α)) : lookupA r (setKey k v m) = lookupA r m := by
  have hk : ¬ (k = r) := fun hh => h hh.symm
  induction m with
  | nil => simp [setKey, lookupA, hk]
  | cons p rest ih =>
    by_cases hp : p.1 = k
    · simp [setKey, hp, lookupA, hk, ih]
    · simp [setKey, hp, lookupA, ih]

theorem lookupA_delKey_self {α : Type} (k : String) (m : List (String × α)) :
    lookupA k (delKey k m) = none := by
  induction m with
  | nil => simp [delKey, lookupA]
  | cons p rest ih =>
    by_cases h : p.1 = k
    · simp [delKey, h, ih]
    · simp [delKey, h, lookupA, ih]

theorem lookupA_delKey_ne {α : Type} {r k : String} (h : r ≠ k)
    (m : List (String × α)) : lookupA r (delKey k m) = lookupA r m := by
  have hk : ¬ (k = r) := fun hh => h hh.symm
  induction m with
  | nil => simp [delKey]
  | cons p rest ih =>
    by_cases hp : p.1 = k
    · simp [delKey, hp, lookupA, hk, ih]
    · simp [delKey, hp, lookupA, ih]

theorem lookupA_mem {α : Type} {k : String} {v : α} {m : List (String × α)}
    (h : lookupA k m = some v) : (k, v) ∈ m := by
  induction m with
  | nil => simp [lookupA] at h
  | cons p rest ih =>
    by_cases hp : p.1 = k
    · simp [lookupA, hp] at h
      have hpv : p = (k, v) := Prod.ext hp h
      rw [← hpv]
      exact List.mem_cons_self _ _
    · simp [lookupA, hp] at h
      exact List.mem_cons_of_mem _ (ih h)

theorem mem_setKey {α : Type} {p : String × α} {k : String} {v : α}
    {m : List (String × α)} (h : p ∈ setKey k v m) : p = (k, v) ∨ p ∈ m := by
  induction m with
  | nil => simp [setKey] at h; simp [h]
  | cons q rest ih =>
    by_cases hq : q.1 = k
    · simp [setKey, hq] at h
      rcases h with h | h
      · exact Or.inl h
      · exact Or.inr (List.mem_cons_of_mem _ h)
    · simp [setKey, hq] at h
      rcases h with h | h
      · exact Or.inr (by simp [h])
      · rcases ih h with h2 | h2
        · exact Or.inl h2
        · exact Or.inr (List.mem_cons_of_mem _ h2)

theorem mem_delKey {α : Type} {p : String × α} {k : String}
    {m : List (String × α)} (h : p ∈ delKey k m) : p ∈ m ∧ p.1 ≠ k := by
  induction m with
  | nil => simp [delKey] at h
  | cons q rest ih =>
    by_cases hq : q.1 = k
    · simp [delKey, hq] at h
      exact ⟨List.mem_cons_of_mem _ (ih h).1, (ih h).2⟩
    · simp [delKey, hq] at h
      rcases h with h | h
      · subst h
        exact ⟨List.mem_cons_self _ _, hq⟩
      · exact ⟨List.mem_cons_of_mem _ (ih h).1, (ih h).2⟩

/- Invariants of the server state. -/

/-- The rooms map and the roomStates map hold entries for exactly the same
room codes (the entry and the state record are created and deleted
together). -/
def keysAligned (r : List (String × List String)) (st : List (String × RoomState)) : Prop :=
  (∀ p ∈ r, (lookupA p.1 st).isSome = true) ∧
  (∀ q ∈ st, (lookupA q.1 r).isSome = true)

/-- Key alignment of a server state's rooms and roomStates maps. -/
def alignedKeys (s : ServerState) : Prop := keysAligned s.rooms s.roomStates

/-- No registered room has an empty device set. -/
def noEmptyRoom (s : ServerState) : Prop := ∀ p ∈ s.rooms, p.2 ≠ []

theorem keysAligned_isSome_states {R : List (String × List String)}
    {S : List (String × RoomState)} {k : String} {v : List String}
    (h : keysAligned R S) (hk : lookupA k R = some v) :
    (lookupA k S).isSome = true :=
  h.1 (k, v) (lookupA_mem hk)

theorem keysAligned_isSome_rooms {R : List (String × List String)}
    {S : List (String × RoomState)} {k : String} {st : RoomState}
    (h : keysAligned R S) (hk : lookupA k S = some st) :
    (lookupA k R).isSome = true :=
  h.2 (k, st) (lookupA_mem hk)

theorem keysAligned_setKey_rooms {R : List (String × List String)}
    {S : List (String × RoomState)} {k : String}
    (h : keysAligned R S) (hk : (lookupA k S).isSome = true) (v : List String) :
    keysAligned (setKey k v R) S := by
  constructor
  · intro p hp
    rcases mem_setKey hp with h1 | h1
    · rw [h1]
      exact hk
    · exact h.1 p h1
  · intro q hq
    by_cases hqk : q.1 = k
    · rw [hqk, lookupA_setKey_self]
      rfl
    · rw [lookupA_setKey_ne hqk]
      exact h.2 q hq

theorem keysAligned_setKey_states {R : List (String × List String)}
    {S : List (String × RoomState)} {k : String}
    (h : keysAligned R S) (hk : (lookupA k R).isSome = true) (st : RoomState) :
    keysAligned R (setKey k st S) := by
  constructor
  · intro p hp
    by_cases hpk : p.1 = k
    · rw [hpk, lookupA_setKey_self]
      rfl
    · rw [lookupA_setKey_ne hpk]
      exact h.1 p hp
  · intro q hq
    rcases mem_setKey hq with h1 | h1
    · rw [h1]
      exact hk
    · exact h.2 q h1

theorem keysAligned_setBoth {R : List (String × List String)}
    {S : List (String × RoomState)} {k : String}
    (h : keysAligned R S) (v : List String) (st : RoomState) :
    keysAligned (setKey k v R) (setKey k st S) := by
  constructor
  · intro p hp
    rcases mem_setKey hp with h1 | h1
    · rw [h1, lookupA_setKey_self]
      rfl
    · by_cases hpk : p.1 = k
      · rw [hpk, lookupA_setKey_self]
        rfl
      · rw [lookupA_setKey_ne hpk]
        exact h.1 p h1
  · intro q hq
    rcases mem_setKey hq with h1 | h1
    · rw [h1, lookupA_setKey_self]
      rfl
    · by_cases hqk : q.1 = k
      · rw [hqk, lookupA_setKey_self]
        rfl
      · rw [lookupA_setKey_ne hqk]
        exact h.2 q h1

theorem keysAligned_delBoth {R : List (String × List String)}
    {S : List (String × RoomState)} {k : String}
    (h : keysAligned R S) :
    keysAligned (delKey k R) (delKey k S) := by
  constructor
  · intro p hp
    rcases mem_delKey hp with ⟨h1, h2⟩
    rw [lookupA_delKey_ne h2]
    exact h.1 p h1
  · intro q hq
    rcases mem_delKey hq with ⟨h1, h2⟩
    rw [lookupA_delKey_ne h2]
    exact h.2 q h1

theorem noEmpty_setKey {R : List (String × List String)} {k : String}
    {v : List String} (h : ∀ p ∈ R, p.2 ≠ []) (hv : v ≠ []) :
    ∀ p ∈ setKey k v R, p.2 ≠ [] := by
  intro p hp
  rcases mem_setKey hp with h1 | h1
  · rw [h1]
    exact hv
  · exact h p h1

theorem noEmpty_delKey {R : List (String × List String)} {k : String}
    (h : ∀ p ∈ R, p.2 ≠ []) :
    ∀ p ∈ delKey k R, p.2 ≠ [] := by
  intro p hp
  exact h p (mem_delKey hp).1

/- Preservation of the invariants by the individual handlers. -/

theorem aligned_handleLeaveRoom (s : ServerState) (sender roomId : String)
    (h : alignedKeys s) : alignedKeys (handleLeaveRoom s sender roomId).1 := by
  unfold handleLeaveRoom
  dsimp only
  rcases hr : lookupA roomId s.rooms with _ | ds
  · exact h
  · dsimp only
    by_cases he : ds.erase sender = []
    · rw [if_pos he]
      exact keysAligned_delBoth h
    · rw [if_neg he]
      exact keysAligned_setKey_rooms h (keysAligned_isSome_states h hr) _

theorem noEmpty_handleLeaveRoom (s : ServerState) (sender roomId : String)
    (h : noEmptyRoom s) : noEmptyRoom (handleLeaveRoom s sender roomId).1 := by
  unfold handleLeaveRoom
  dsimp only
  rcases hr : lookupA roomId s.rooms with _ | ds
  · exact h
  · dsimp only
    by_cases he : ds.erase sender = []
    · rw [if_pos he]
      exact noEmpty_delKey h
    · rw [if_neg he]
      exact noEmpty_setKey h he

theorem aligned_handleDisconnect (s : ServerState) (sender : String)
    (h : alignedKeys s) : alignedKeys (handleDisconnect s sender).1 := by
  unfold handleDisconnect
  dsimp only
  rcases hdi : lookupA sender s.deviceInfo with _ | info
  · exact h
  · dsimp only
    rcases hr : lookupA info.roomId s.rooms with _ | ds
    · exact h
    · dsimp only
      by_cases he : ds.erase sender = []
      · rw [if_pos he]
        exact keysAligned_delBoth h
      · rw [if_neg he]
        exact keysAligned_setKey_rooms h (keysAligned_isSome_states h hr) _

theorem noEmpty_handleDisconnect (s : ServerState) (sender : String)
    (h : noEmptyRoom s) : noEmptyRoom (handleDisconnect s sender).1 := by
  unfold handleDisconnect
  dsimp only
  rcases hdi : lookupA sender s.deviceInfo with _ | info
  · exact h
  · dsimp only
    rcases hr : lookupA info.roomId s.rooms with _ | ds
    · exact h
    · dsimp only
      by_cases he : ds.erase sender = []
      · rw [if_pos he]
        exact noEmpty_delKey h
      · rw [if_neg he]
        exact noEmpty_setKey h he

theorem aligned_handleSlideChange (now : Nat) (s : ServerState)
    (sender roomId : String) (v : Int) (ts : Option Int) (h : alignedKeys s) :
    alignedKeys (handleSlideChange now s sender roomId v ts).1 := by
  unfold handleSlideChange
  rcases hst : lookupA roomId s.roomStates with _ | st
  · exact h
  · dsimp only
    exact keysAligned_setKey_states h (keysAligned_isSome_rooms h hst) _

theorem aligned_handleSetTotalSlides (now : Nat) (s : ServerState)
    (sender roomId : String) (v : Int) (h : alignedKeys s) :
    alignedKeys (handleSetTotalSlides now s sender roomId v).1 := by
  unfold handleSetTotalSlides
  rcases hst : lookupA roomId s.roomStates with _ | st
  · exact h
  · dsimp only
    exact keysAligned_setKey_states h (keysAligned_isSome_rooms h hst) _

theorem aligned_handleUpdateRole (s : ServerState) (sender roomId : String)
    (role : Role) (deviceName : String) (h : alignedKeys s) :
    alignedKeys (handleUpdateRole s sender roomId role deviceName).1 := by
  unfold handleUpdateRole
  rcases hdi : lookupA sender s.deviceInfo with _ | info
  · exact h
  · exact h

theorem aligned_joinPrev (s : ServerState) (sender roomId : String)
    (h : alignedKeys s) : alignedKeys (joinPrev s sender roomId).1 := by
  unfold joinPrev
  rcases hdi : lookupA sender s.deviceInfo with _ | info
  · exact h
  · dsimp only
    by_cases hir : info.roomId = roomId
    · rw [if_neg (fun hc => hc hir)]
      exact h
    · rw [if_pos hir]
      rcases hold : lookupA info.roomId s.rooms with _ | oldSet
      · exact h
      · dsimp only
        exact keysAligned_setKey_rooms h (keysAligned_isSome_states h hold) _

theorem aligned_joinCore (now : Nat) (s : ServerState) (sender roomId : String)
    (role : Role) (deviceName : String) (h : alignedKeys s) :
    alignedKeys (joinCore now s sender roomId role deviceName).1 := by
  unfold joinCore
  dsimp only
  rcases hr : lookupA roomId s.rooms with _ | ds
  · dsimp only
    rw [lookupA_setKey_self]
    dsimp only
    rw [lookupA_setKey_self]
    dsimp only
    exact keysAligned_setBoth (keysAligned_setBoth h _ _) _ _
  · dsimp only
    rw [hr]
    dsimp only
    obtain ⟨st, hst⟩ := Option.isSome_iff_exists.mp (keysAligned_isSome_states h hr)
    rw [hst]
    dsimp only
    exact keysAligned_setBoth h _ _

theorem aligned_handleJoinRoom (now : Nat) (s : ServerState)
    (sender roomId : String) (role : Role) (deviceName : String)
    (h : alignedKeys s) :
    alignedKeys (handleJoinRoom now s sender roomId role deviceName).1 := by
  unfold handleJoinRoom
  exact aligned_joinCore now _ sender roomId role deviceName
    (aligned_joinPrev s sender roomId h)

/- Pointwise effect lemmas for the individual handlers. -/

theorem handleSlideChange_effect (now : Nat) (s : ServerState)
    (sender roomId : String) (v : Int) (ts : Option Int) (st : RoomState)
    (h : lookupA roomId s.roomStates = some st) :
    lookupA roomId (handleSlideChange now s sender roomId v ts).1.roomStates =
      some { slideIndex := v, totalSlides := applyTotal st.totalSlides ts,
             createdAt := st.createdAt, lastActivity := now } ∧
    (handleSlideChange now s sender roomId v ts).1.socketRooms = s.socketRooms ∧
    (handleSlideChange now s sender roomId v ts).2 =
      [Emit.slideSync (ioTo s roomId)
        { slideIndex := v, totalSlides := applyTotal st.totalSlides ts,
          roomId := roomId, sourceId := some sender, timestamp := some now }] := by
  unfold handleSlideChange
  rw [h]
  dsimp only
  exact ⟨lookupA_setKey_self _ _ _, rfl, rfl⟩

theorem handleSetTotalSlides_effect (now : Nat) (s : ServerState)
    (sender roomId : String) (v : Int) (st : RoomState)
    (h : lookupA roomId s.roomStates = some st) :
    lookupA roomId (handleSetTotalSlides now s sender roomId v).1.roomStates =
      some { slideIndex := st.slideIndex, totalSlides := v,
             createdAt := st.createdAt, lastActivity := now } ∧
    (handleSetTotalSlides now s sender roomId v).2 =
      [Emit.slideSync (ioTo s roomId)
        { slideIndex := st.slideIndex, totalSlides := v,
          roomId := roomId, sourceId := none, timestamp := none }] := by
  unfold handleSetTotalSlides
  rw [h]
  dsimp only
  exact ⟨lookupA_setKey_self _ _ _, rfl⟩

theorem handleLeaveRoom_effect (s : ServerState) (d r : String)
    (ds : List String) (hds : lookupA r s.rooms = some ds) :
    lookupA d (handleLeaveRoom s d r).1.deviceInfo = none ∧
    (ds.erase d = [] →
      lookupA r (handleLeaveRoom s d r).1.rooms = none ∧
      lookupA r (handleLeaveRoom s d r).1.roomStates = none) ∧
    (ds.erase d ≠ [] →
      lookupA r (handleLeaveRoom s d r).1.rooms = some (ds.erase d)) := by
  unfold handleLeaveRoom
  dsimp only
  rw [hds]
  dsimp only
  by_cases he : ds.erase d = []
  · rw [if_pos he]
    dsimp only
    exact ⟨lookupA_delKey_self _ _,
      fun _ => ⟨lookupA_delKey_self _ _, lookupA_delKey_self _ _⟩,
      fun hne => absurd he hne⟩
  · rw [if_neg he]
    dsimp only
    exact ⟨lookupA_delKey_self _ _,
      fun heq => absurd heq he,
      fun _ => lookupA_setKey_self _ _ _⟩

theorem handleDisconnect_effect (s : ServerState) (d : String)
    (info : DeviceInfo) (ds : List String)
    (hinfo : lookupA d s.deviceInfo = some info)
    (hds : lookupA info.roomId s.rooms = some ds) :
    lookupA d (handleDisconnect s d).1.deviceInfo = none ∧
    (ds.erase d = [] →
      lookupA info.roomId (handleDisconnect s d).1.rooms = none ∧
      lookupA info.roomId (handleDisconnect s d).1.roomStates = none) ∧
    (ds.erase d ≠ [] →
      lookupA info.roomId (handleDisconnect s d).1.rooms = some (ds.erase d)) := by
  unfold handleDisconnect
  dsimp only
  rw [hinfo]
  dsimp only
  rw [hds]
  dsimp only
  by_cases he : ds.erase d = []
  · rw [if_pos he]
    dsimp only
    exact ⟨lookupA_delKey_self _ _,
      fun _ => ⟨lookupA_delKey_self _ _, lookupA_delKey_self _ _⟩,
      fun hne => absurd he hne⟩
  · rw [if_neg he]
    dsimp only
    exact ⟨lookupA_delKey_self _ _,
      fun heq => absurd heq he,
      fun _ => lookupA_setKey_self _ _ _⟩

theorem joinPrev_rooms_none (s : ServerState) (sender roomId : String)
    (h : lookupA roomId s.rooms = none) :
    lookupA roomId (joinPrev s sender roomId).1.rooms = none := by
  unfold joinPrev
  rcases hdi : lookupA sender s.deviceInfo with _ | info
  · exact h
  · dsimp only
    by_cases hir : info.roomId = roomId
    · rw [if_neg (fun hc => hc hir)]
      exact h
    · rw [if_pos hir]
      rcases hold : lookupA info.roomId s.rooms with _ | oldSet
      · exact h
      · dsimp only
        rw [lookupA_setKey_ne (fun hc => hir hc.symm)]
        exact h

theorem joinCore_fresh (now : Nat) (s : ServerState) (sender roomId : String)
    (role : Role) (deviceName : String) (h : lookupA roomId s.rooms = none) :
    lookupA roomId (joinCore now s sender roomId role deviceName).1.rooms = some [sender] ∧
    lookupA roomId (joinCore now s sender roomId role deviceName).1.roomStates =
      some { slideIndex := 1, totalSlides := 0, createdAt := now, lastActivity := now } := by
  unfold joinCore
  dsimp only
  rw [h]
  dsimp only
  rw [lookupA_setKey_self]
  dsimp only
  rw [lookupA_setKey_self]
  dsimp only
  constructor
  · rw [lookupA_setKey_self]
    have : addElem [] sender = [sender] := by
      unfold addElem
      rw [if_neg (List.not_mem_nil sender)]
      rfl
    rw [this]
  · rw [lookupA_setKey_self]

theorem handleJoinRoom_fresh (now : Nat) (s : ServerState)
    (sender roomId : String) (role : Role) (deviceName : String)
    (h : lookupA roomId s.rooms = none) :
    lookupA roomId (handleJoinRoom now s sender roomId role deviceName).1.rooms = some [sender] ∧
    lookupA roomId (handleJoinRoom now s sender roomId role deviceName).1.roomStates =
      some { slideIndex := 1, totalSlides := 0, createdAt := now, lastActivity := now } := by
  unfold handleJoinRoom
  exact joinCore_fresh now _ sender roomId role deviceName
    (joinPrev_rooms_none s sender roomId h)

/- Concrete states used by the claim checks. -/

/-- A server with one room ROOMAA containing one device d1 and slide state
5 of 12. -/
def oneRoomState : ServerState :=
  { rooms := [("ROOMAA", ["d1"])],
    deviceInfo := [("d1", { role := .stage, name := "A", roomId := "ROOMAA", joinedAt := 0 })],
    roomStates := [("ROOMAA", { slideIndex := 5, totalSlides := 12, createdAt := 0, lastActivity := 0 })],
    socketRooms := [("ROOMAA", ["d1"])] }

/-- The state after device d1 joins room ROOMAA on a fresh server and then
joins room ROOMBB, moving out of ROOMAA. -/
def switchState : ServerState :=
  (step 1 (step 0 initialState (.joinRoom "d1" "ROOMAA" .stage "A")).1
    (.joinRoom "d1" "ROOMBB" .stage "A")).1

/-- The unregister paths of the protocol: explicit leave and transport
disconnect. -/
def unregisterEvent : Event → Prop
  | .disconnect _ => True
  | .leaveRoom _ _ => True
  | _ => False

instance (s : ServerState) : Decidable (alignedKeys s) := by
  unfold alignedKeys keysAligned
  infer_instance

instance (s : ServerState) : Decidable (noEmptyRoom s) := by
  unfold noEmptyRoom
  infer_instance

/- Claim checks. -/

/-- Claim C1, counterexample: after d1 joins ROOMAA and then joins ROOMBB,
the emptied previous room ROOMAA is still registered with an empty device
set, and its state record still exists — so the claimed invariant (a room
exists iff at least one device is registered in it, with immediate deletion
also on a join that moves a device out) is false on the code. -/
theorem C1_counterexample :
    lookupA "ROOMAA" switchState.rooms = some [] ∧
    lookupA "ROOMAA" switchState.roomStates =
      some { slideIndex := 1, totalSlides := 0, createdAt := 0, lastActivity := 0 } := by
  decide

/-- Claim C1, amended: a room's entry and its state record are created and
deleted together (every event preserves key alignment of the rooms and
roomStates maps), and the two unregister operations — explicit leave and
transport disconnect — delete the room the instant its device set becomes
empty, so they never leave an empty room registered; a join that moves a
device out of its previous room, however, does not delete the emptied
previous room (see the counterexample). -/
theorem C1_amended (now : Nat) (s : ServerState) (e : Event)
    (hA : alignedKeys s) (hN : noEmptyRoom s) :
    alignedKeys (step now s e).1 ∧
      (unregisterEvent e → noEmptyRoom (step now s e).1) := by
  cases e with
  | joinRoom sender roomId role deviceName =>
    exact ⟨aligned_handleJoinRoom now s sender roomId role deviceName hA, fun hf => hf.elim⟩
  | slideChange sender roomId v ts =>
    exact ⟨aligned_handleSlideChange now s sender roomId v ts hA, fun hf => hf.elim⟩
  | setTotalSlides sender roomId v =>
    exact ⟨aligned_handleSetTotalSlides now s sender roomId v hA, fun hf => hf.elim⟩
  | annoData sender roomId slideId stroke => exact ⟨hA, fun hf => hf.elim⟩
  | clearAnnos sender roomId slideId => exact ⟨hA, fun hf => hf.elim⟩
  | updateRole sender roomId role deviceName =>
    exact ⟨aligned_handleUpdateRole s sender roomId role deviceName hA, fun hf => hf.elim⟩
  | disconnect sender =>
    exact ⟨aligned_handleDisconnect s sender hA,
      fun _ => noEmpty_handleDisconnect s sender hN⟩
  | leaveRoom sender roomId =>
    exact ⟨aligned_handleLeaveRoom s sender roomId hA,
      fun _ => noEmpty_handleLeaveRoom s sender roomId hN⟩
  | toggleFullscreen sender roomId b => exact ⟨hA, fun hf => hf.elim⟩
  | togglePlay sender roomId b => exact ⟨hA, fun hf => hf.elim⟩
  | toggleGrid sender roomId b => exact ⟨hA, fun hf => hf.elim⟩
  | togglePrivacy sender roomId b => exact ⟨hA, fun hf => hf.elim⟩
  | timerUpdate sender roomId t => exact ⟨hA, fun hf => hf.elim⟩
  | timerTick sender roomId rem => exact ⟨hA, fun hf => hf.elim⟩

/-- Claim C1, witness for the amended theorem at a concrete input: the
one-room state is aligned and has no empty room, and after d1 disconnects
the resulting state is aligned and again has no empty room. -/
theorem C1_amended_witness :
    alignedKeys oneRoomState ∧ noEmptyRoom oneRoomState ∧
    (alignedKeys (step 2 oneRoomState (.disconnect "d1")).1 ∧
      (unregisterEvent (.disconnect "d1") →
        noEmptyRoom (step 2 oneRoomState (.disconnect "d1")).1)) :=
  ⟨by decide, by decide,
   C1_amended 2 oneRoomState (.disconnect "d1") (by decide) (by decide)⟩

/-- Claim C2, counterexample: room ROOMAA stores totalSlides 12, yet
processing set-total-slides with value 0 overwrites it to 0 — the claimed
positivity guard does not exist in the set-total-slides handler. -/
theorem C2_counterexample :
    (lookupA "ROOMAA" (step 1 oneRoomState (.setTotalSlides "d1" "ROOMAA" 0)).1.roomStates).map
        RoomState.totalSlides = some 0 ∧ (0 : Int) ≠ 12 := by
  decide

/-- Claim C2, amended: the set-total-slides handler overwrites the stored
totalSlides unconditionally, including with zero or negative values; the
positivity guard exists only for the optional totalSlides field of the
slide-change handler, which leaves totalSlides unchanged for a
non-positive payload value. -/
theorem C2_amended (now : Nat) (s : ServerState) (sender roomId : String)
    (v : Int) (st : RoomState) (h : lookupA roomId s.roomStates = some st) :
    lookupA roomId (step now s (.setTotalSlides sender roomId v)).1.roomStates =
      some { slideIndex := st.slideIndex, totalSlides := v,
             createdAt := st.createdAt, lastActivity := now } ∧
    (∀ (d : String) (i tv : Int), tv ≤ 0 →
      lookupA roomId (step now s (.slideChange d roomId i (some tv))).1.roomStates =
        some { slideIndex := i, totalSlides := st.totalSlides,
               createdAt := st.createdAt, lastActivity := now }) := by
  constructor
  · exact (handleSetTotalSlides_effect now s sender roomId v st h).1
  · intro d i tv htv
    have happ : applyTotal st.totalSlides (some tv) = st.totalSlides := by
      show (if 0 < tv then tv else st.totalSlides) = st.totalSlides
      rw [if_neg (not_lt.mpr htv)]
    have heff := (handleSlideChange_effect now s d roomId i (some tv) st h).1
    rw [happ] at heff
    exact heff

/-- Claim C2, witness for the amended theorem: on the one-room state with
totalSlides 12, set-total-slides 0 stores 0, and slide-change to slide 7
with payload totalSlides 0 keeps totalSlides 12. -/
theorem C2_amended_witness :
    lookupA "ROOMAA" oneRoomState.roomStates =
      some { slideIndex := 5, totalSlides := 12, createdAt := 0, lastActivity := 0 } ∧
    (lookupA "ROOMAA" (step 1 oneRoomState (.setTotalSlides "d1" "ROOMAA" 0)).1.roomStates =
      some { slideIndex := 5, totalSlides := 0, createdAt := 0, lastActivity := 1 } ∧
    (∀ (d : String) (i tv : Int), tv ≤ 0 →
      lookupA "ROOMAA" (step 1 oneRoomState (.slideChange d "ROOMAA" i (some tv))).1.roomStates =
        some { slideIndex := i, totalSlides := 12, createdAt := 0, lastActivity := 1 })) :=
  ⟨by decide,
   C2_amended 1 oneRoomState "d1" "ROOMAA" 0
     { slideIndex := 5, totalSlides := 12, createdAt := 0, lastActivity := 0 } (by decide)⟩

/-- Claim C3: the four toggle events the client emits (toggle-fullscreen,
toggle-play, toggle-grid, toggle-privacy) have no registered handler in
server.ts, so processing any of them leaves the server state unchanged and
broadcasts nothing — contrary to the claim that the server stores the
toggle and broadcasts a corresponding sync event to the room minus the
sender. -/
theorem C3_theorem (now : Nat) (s : ServerState) (sender roomId : String) (b : Bool) :
    step now s (.toggleFullscreen sender roomId b) = (s, []) ∧
    step now s (.togglePlay sender roomId b) = (s, []) ∧
    step now s (.toggleGrid sender roomId b) = (s, []) ∧
    step now s (.togglePrivacy sender roomId b) = (s, []) :=
  ⟨rfl, rfl, rfl, rfl⟩

/-- Claim C4: unregistering a device — transport disconnect, or an explicit
leave-room for the room the device belongs to — deletes its deviceInfo
entry and removes it from that room's device set; if the set thereby
empties, both the room entry and its state record are deleted, and a
subsequent join of the same code creates a fresh room with the default
state (slideIndex 1, totalSlides 0). -/
theorem C4_theorem (now : Nat) (s : ServerState) (d r : String)
    (info : DeviceInfo) (ds : List String)
    (hinfo : lookupA d s.deviceInfo = some info) (hroom : info.roomId = r)
    (hds : lookupA r s.rooms = some ds) :
    (lookupA d (step now s (.disconnect d)).1.deviceInfo = none ∧
      (ds.erase d = [] →
        lookupA r (step now s (.disconnect d)).1.rooms = none ∧
        lookupA r (step now s (.disconnect d)).1.roomStates = none) ∧
      (ds.erase d ≠ [] →
        lookupA r (step now s (.disconnect d)).1.rooms = some (ds.erase d))) ∧
    (lookupA d (step now s (.leaveRoom d r)).1.deviceInfo = none ∧
      (ds.erase d = [] →
        lookupA r (step now s (.leaveRoom d r)).1.rooms = none ∧
        lookupA r (step now s (.leaveRoom d r)).1.roomStates = none) ∧
      (ds.erase d ≠ [] →
        lookupA r (step now s (.leaveRoom d r)).1.rooms = some (ds.erase d))) ∧
    (∀ (now2 : Nat) (t : ServerState) (sender : String) (role : Role) (name : String),
      lookupA r t.rooms = none →
      lookupA r (step now2 t (.joinRoom sender r role name)).1.rooms = some [sender] ∧
      lookupA r (step now2 t (.joinRoom sender r role name)).1.roomStates =
        some { slideIndex := 1, totalSlides := 0, createdAt := now2, lastActivity := now2 }) := by
  subst hroom
  exact ⟨handleDisconnect_effect s d info ds hinfo hds,
    handleLeaveRoom_effect s d info.roomId ds hds,
    fun now2 t sender role name ht =>
      handleJoinRoom_fresh now2 t sender info.roomId role name ht⟩

/-- Claim C4, witness at a concrete input: on the one-room state, d1
disconnecting (or leaving) deletes room ROOMAA and its state record, and a
later join of ROOMAA on the resulting empty server recreates it fresh. -/
theorem C4_witness :
    (lookupA "d1" oneRoomState.deviceInfo =
        some { role := .stage, name := "A", roomId := "ROOMAA", joinedAt := 0 } ∧
     lookupA "ROOMAA" oneRoomState.rooms = some ["d1"]) ∧
    ((lookupA "d1" (step 2 oneRoomState (.disconnect "d1")).1.deviceInfo = none ∧
      ((["d1"].erase "d1") = [] →
        lookupA "ROOMAA" (step 2 oneRoomState (.disconnect "d1")).1.rooms = none ∧
        lookupA "ROOMAA" (step 2 oneRoomState (.disconnect "d1")).1.roomStates = none) ∧
      ((["d1"].erase "d1") ≠ [] →
        lookupA "ROOMAA" (step 2 oneRoomState (.disconnect "d1")).1.rooms =
          some (["d1"].erase "d1"))) ∧
    (lookupA "d1" (step 2 oneRoomState (.leaveRoom "d1" "ROOMAA")).1.deviceInfo = none ∧
      ((["d1"].erase "d1") = [] →
        lookupA "ROOMAA" (step 2 oneRoomState (.leaveRoom "d1" "ROOMAA")).1.rooms = none ∧
        lookupA "ROOMAA" (step 2 oneRoomState (.leaveRoom "d1" "ROOMAA")).1.roomStates = none) ∧
      ((["d1"].erase "d1") ≠ [] →
        lookupA "ROOMAA" (step 2 oneRoomState (.leaveRoom "d1" "ROOMAA")).1.rooms =
          some (["d1"].erase "d1"))) ∧
    (∀ (now2 : Nat) (t : ServerState) (sender : String) (role : Role) (name : String),
      lookupA "ROOMAA" t.rooms = none →
      lookupA "ROOMAA" (step now2 t (.joinRoom sender "ROOMAA" role name)).1.rooms = some [sender] ∧
      lookupA "ROOMAA" (step now2 t (.joinRoom sender "ROOMAA" role name)).1.roomStates =
        some { slideIndex := 1, totalSlides := 0, createdAt := now2, lastActivity := now2 })) :=
  ⟨⟨by decide, by decide⟩,
   C4_theorem 2 oneRoomState "d1" "ROOMAA"
     { role := .stage, name := "A", roomId := "ROOMAA", joinedAt := 0 } ["d1"]
     (by decide) rfl (by decide)⟩

/-- Claim C5: processing slide-change for an existing room overwrites the
stored slideIndex unconditionally with the payload value (no clamping),
overwrites totalSlides only when the payload field is present and positive,
and after two slide-change events with values V1 then V2 the stored and
broadcast slideIndex equals V2 regardless of which devices sent them. -/
theorem C5_theorem (now1 now2 : Nat) (s : ServerState) (d1 d2 roomId : String)
    (v1 v2 : Int) (ts1 ts2 : Option Int) (st : RoomState)
    (h : lookupA roomId s.roomStates = some st) :
    lookupA roomId (step now1 s (.slideChange d1 roomId v1 ts1)).1.roomStates =
      some { slideIndex := v1, totalSlides := applyTotal st.totalSlides ts1,
             createdAt := st.createdAt, lastActivity := now1 } ∧
    lookupA roomId (step now2 (step now1 s (.slideChange d1 roomId v1 ts1)).1
        (.slideChange d2 roomId v2 ts2)).1.roomStates =
      some { slideIndex := v2,
             totalSlides := applyTotal (applyTotal st.totalSlides ts1) ts2,
             createdAt := st.createdAt, lastActivity := now2 } ∧
    (step now2 (step now1 s (.slideChange d1 roomId v1 ts1)).1
        (.slideChange d2 roomId v2 ts2)).2 =
      [Emit.slideSync (ioTo s roomId)
        { slideIndex := v2, totalSlides := applyTotal (applyTotal st.totalSlides ts1) ts2,
          roomId := roomId, sourceId := some d2, timestamp := some now2 }] := by
  obtain ⟨h1, hsock1, hem1⟩ := handleSlideChange_effect now1 s d1 roomId v1 ts1 st h
  obtain ⟨h2, hsock2, hem2⟩ :=
    handleSlideChange_effect now2 (handleSlideChange now1 s d1 roomId v1 ts1).1 d2 roomId v2 ts2 _ h1
  refine ⟨h1, h2, ?_⟩
  show (handleSlideChange now2 (handleSlideChange now1 s d1 roomId v1 ts1).1 d2 roomId v2 ts2).2 = _
  rw [hem2]
  have hio : ioTo (handleSlideChange now1 s d1 roomId v1 ts1).1 roomId = ioTo s roomId := by
    unfold ioTo
    rw [hsock1]
  rw [hio]

/-- Claim C5, witness at a concrete input: on the one-room state, two
slide-change events with values 7 then 3 leave slideIndex 3 stored and
broadcast, regardless of the senders. -/
theorem C5_witness :
    lookupA "ROOMAA" oneRoomState.roomStates =
      some { slideIndex := 5, totalSlides := 12, createdAt := 0, lastActivity := 0 } ∧
    (lookupA "ROOMAA" (step 1 oneRoomState (.slideChange "d1" "ROOMAA" 7 none)).1.roomStates =
      some { slideIndex := 7, totalSlides := applyTotal 12 none,
             createdAt := 0, lastActivity := 1 } ∧
    lookupA "ROOMAA" (step 2 (step 1 oneRoomState (.slideChange "d1" "ROOMAA" 7 none)).1
        (.slideChange "d9" "ROOMAA" 3 none)).1.roomStates =
      some { slideIndex := 3, totalSlides := applyTotal (applyTotal 12 none) none,
             createdAt := 0, lastActivity := 2 } ∧
    (step 2 (step 1 oneRoomState (.slideChange "d1" "ROOMAA" 7 none)).1
        (.slideChange "d9" "ROOMAA" 3 none)).2 =
      [Emit.slideSync (ioTo oneRoomState "ROOMAA")
        { slideIndex := 3, totalSlides := applyTotal (applyTotal 12 none) none,
          roomId := "ROOMAA", sourceId := some "d9", timestamp := some 2 }]) :=
  ⟨by decide,
   C5_theorem 1 2 oneRoomState "d1" "d9" "ROOMAA" 7 3 none none
     { slideIndex := 5, totalSlides := 12, createdAt := 0, lastActivity := 0 } (by decide)⟩

/-- Claim C6: after a slide-change event from a member of an active room,
the server emits a single slide-sync to every socket in that room —
including the sender, who is among the recipients — carrying the new
slideIndex, the current totalSlides, the sender's connection id as sourceId
and the server timestamp. -/
theorem C6_theorem (now : Nat) (s : ServerState) (sender roomId : String)
    (v : Int) (ts : Option Int) (st : RoomState)
    (h : lookupA roomId s.roomStates = some st) (hm : sender ∈ ioTo s roomId) :
    (step now s (.slideChange sender roomId v ts)).2 =
      [Emit.slideSync (ioTo s roomId)
        { slideIndex := v, totalSlides := applyTotal st.totalSlides ts,
          roomId := roomId, sourceId := some sender, timestamp := some now }] ∧
    sender ∈ ioTo s roomId :=
  ⟨(handleSlideChange_effect now s sender roomId v ts st h).2.2, hm⟩

/-- Claim C6, witness at a concrete input: d1, a member of ROOMAA, changes
to slide 9; the single slide-sync goes to the room's socket list, which
contains d1. -/
theorem C6_witness :
    lookupA "ROOMAA" oneRoomState.roomStates =
      some { slideIndex := 5, totalSlides := 12, createdAt := 0, lastActivity := 0 } ∧
    "d1" ∈ ioTo oneRoomState "ROOMAA" ∧
    ((step 4 oneRoomState (.slideChange "d1" "ROOMAA" 9 none)).2 =
      [Emit.slideSync (ioTo oneRoomState "ROOMAA")
        { slideIndex := 9, totalSlides := applyTotal 12 none,
          roomId := "ROOMAA", sourceId := some "d1", timestamp := some 4 }] ∧
     "d1" ∈ ioTo oneRoomState "ROOMAA") :=
  ⟨by decide, by decide,
   C6_theorem 4 oneRoomState "d1" "ROOMAA" 9 none
     { slideIndex := 5, totalSlides := 12, createdAt := 0, lastActivity := 0 }
     (by decide) (by decide)⟩

/-- Claim C7: a join into existing room ROOMAA (device d1 present, slide
state 5 of 12) produces exactly two messages: a slide-sync unicast to the
joining device only, carrying just the room's slideIndex and totalSlides —
the server holds no toggle or timer state, so the unicast cannot carry the
toggle and timer state the claim describes — and a room-updated broadcast
with the device list to every device in the room. -/
theorem C7_theorem :
    (step 7 oneRoomState (.joinRoom "d2" "ROOMAA" .remote "R")).2 =
      [Emit.slideSync ["d2"]
        { slideIndex := 5, totalSlides := 12, roomId := "ROOMAA",
          sourceId := none, timestamp := none },
       Emit.roomUpdated ["d1", "d2"]
        { roomId := "ROOMAA",
          devices := [{ id := "d1", role := .stage, name := "A" },
                      { id := "d2", role := .remote, name := "R" }],
          totalDevices := 2, totalSlides := 12 }] := by
  decide

/-- Claim C8: the first join for a never-joined room code creates a room
state record holding exactly slideIndex 1, totalSlides 0 and the two
creation timestamps — the record has no toggle fields, so the claimed four
all-false toggles have no counterpart in the code. -/
theorem C8_theorem :
    lookupA "ROOMAA" (step 0 initialState (.joinRoom "d1" "ROOMAA" .stage "A")).1.roomStates =
      some { slideIndex := 1, totalSlides := 0, createdAt := 0, lastActivity := 0 } := by
  decide

/-- Claim C9: a slide-change or set-total-slides naming a room with no
state record is silently ignored — the state (all maps) is unchanged and
nothing is emitted — and the device-list query for an unknown room returns
the empty list. -/
theorem C9_theorem (now : Nat) (s : ServerState) (sender roomId : String)
    (v : Int) (ts : Option Int) (tv : Int) :
    (lookupA roomId s.roomStates = none →
      step now s (.slideChange sender roomId v ts) = (s, []) ∧
      step now s (.setTotalSlides sender roomId tv) = (s, [])) ∧
    (lookupA roomId s.rooms = none → getConnectedDevices s roomId = []) := by
  constructor
  · intro h
    constructor
    · show handleSlideChange now s sender roomId v ts = (s, [])
      unfold handleSlideChange
      rw [h]
    · show handleSetTotalSlides now s sender roomId tv = (s, [])
      unfold handleSetTotalSlides
      rw [h]
  · intro h
    unfold getConnectedDevices
    rw [h]

/-- Claim C9, witness at a concrete input: on a fresh server, room ROOMZZ
is unknown; slide-change and set-total-slides for it are no-ops with no
output, and its device list is empty. -/
theorem C9_witness :
    (lookupA "ROOMZZ" initialState.roomStates = none ∧
     lookupA "ROOMZZ" initialState.rooms = none) ∧
    ((step 3 initialState (.slideChange "d9" "ROOMZZ" 4 none) = (initialState, []) ∧
      step 3 initialState (.setTotalSlides "d9" "ROOMZZ" 8) = (initialState, [])) ∧
     getConnectedDevices initialState "ROOMZZ" = []) :=
  ⟨⟨by decide, by decide⟩,
   ⟨(C9_theorem 3 initialState "d9" "ROOMZZ" 4 none 8).1 (by decide),
    (C9_theorem 3 initialState "d9" "ROOMZZ" 4 none 8).2 (by decide)⟩⟩

/-- Every character of the room-code class [A-Z0-9] is left unchanged by
uppercasing and is neither whitespace nor a dash. -/
theorem charToUpper_mem_id :
    ∀ ch ∈ upperAlnumChars, charToUpper ch = ch ∧ (ch.isWhitespace || ch == '-') = false := by
  decide

/-- Normalization keeps a list of [A-Z0-9] characters unchanged. -/
theorem normalize_keeps (l : List Char) (h : ∀ ch ∈ l, ch ∈ upperAlnumChars) :
    (l.filter fun ch => !(ch.isWhitespace || ch == '-')).map charToUpper = l := by
  induction l with
  | nil => rfl
  | cons a rest ih =>
    have ha := charToUpper_mem_id a (h a (List.mem_cons_self a rest))
    have hrest := ih (fun ch hch => h ch (List.mem_cons_of_mem a hch))
    have hpa : (!(a.isWhitespace || a == '-')) = true := by
      rw [ha.2]
      rfl
    rw [List.filter_cons, if_pos hpa, List.map_cons, ha.1, hrest]

/-- Claim C10: for every valid room code (six characters from [A-Z0-9]),
formatting for display (inserting the dash after the first three
characters) and then normalizing (stripping whitespace and dashes, then
uppercasing) recovers the original code exactly. -/
theorem C10_theorem (code : String) (h : isValidRoomCode code = true) :
    normalizeRoomCode (formatRoomCode code) = code := by
  have hparts : code.length = 6 ∧ ∀ ch ∈ code.toList, isUpperAlnum ch = true := by
    simpa [isValidRoomCode, List.all_eq_true] using h
  have hmem : ∀ ch ∈ code.toList, ch ∈ upperAlnumChars :=
    fun ch hch => of_decide_eq_true (hparts.2 ch hch)
  unfold formatRoomCode
  rw [if_neg (fun hc => hc hparts.1)]
  unfold normalizeRoomCode
  have hdata : (String.mk (code.toList.take 3) ++ "-" ++ String.mk (code.toList.drop 3)).toList
      = code.toList.take 3 ++ '-' :: code.toList.drop 3 := by
    show ((String.mk (code.toList.take 3) ++ "-" ++ String.mk (code.toList.drop 3)).data) = _
    rw [String.data_append, String.data_append]
    simp
  rw [hdata]
  rw [List.filter_append, List.map_append]
  rw [normalize_keeps _ (fun ch hch => hmem ch (List.take_subset 3 code.toList hch))]
  have hstep : List.filter (fun ch => !(ch.isWhitespace || ch == '-')) ('-' :: code.toList.drop 3)
      = List.filter (fun ch => !(ch.isWhitespace || ch == '-')) (code.toList.drop 3) := by
    rw [List.filter_cons, if_neg (by decide)]
  rw [hstep]
  rw [normalize_keeps _ (fun ch hch => hmem ch (List.drop_subset 3 code.toList hch))]
  rw [List.take_append_drop]
  rfl

/-- Claim C10, witness at a concrete input: the valid code ABC123 is
formatted to ABC-123 and normalized back to ABC123. -/
theorem C10_witness : isValidRoomCode "ABC123" = true ∧
    normalizeRoomCode (formatRoomCode "ABC123") = "ABC123" :=
  ⟨by decide, C10_theorem "ABC123" (by decide)⟩

end DeckHand
